import Mathlib

/-!
Shallow embedding of the tuifeed feed-acquisition and state-synchronization
engine, translated from the repository sources: src/ui/mod.rs, src/ui/model.rs
and src/config/serializer.rs. Components of the repository that live in
modules not shipped here, namely the feed data model, the kiosk store, the
fetch client and the string helpers, are modelled from the specification and
marked as such in their doc comments.
-/

/-- An article of a feed, translated from the spec data model (the feed
module is not among the shipped sources): optional title, optional authors,
optional date, summary and url. Dates are kept abstract as strings. -/
structure Article where
  title : Option String
  authors : Option String
  date : Option String
  summary : String
  url : String
deriving DecidableEq, Repr

/-- Modelled from the spec: a Feed is a named, ordered sequence of articles
(the feed module is not among the shipped sources). -/
structure Feed where
  name : String
  articles : List Article
deriving DecidableEq, Repr

/-- Modelled from the spec: the per-source state machine of the kiosk,
Loading, Success carrying the feed, or Error carrying a message (the ui lib
module is not among the shipped sources). -/
inductive FeedState where
  | Loading : FeedState
  | Success : Feed → FeedState
  | Error : String → FeedState
deriving DecidableEq, Repr

/-- Modelled from the spec: the payload-stripped projection of FeedState
used by the presentation layer. -/
inductive FlatFeedState where
  | Loading : FlatFeedState
  | Success : FlatFeedState
  | Error : FlatFeedState
deriving DecidableEq, Repr

/-- Translation of the From conversion collapsing a FeedState to its
FlatFeedState tag. -/
def FlatFeedState.ofState : FeedState → FlatFeedState
  | FeedState.Loading => FlatFeedState.Loading
  | FeedState.Success _ => FlatFeedState.Success
  | FeedState.Error _ => FlatFeedState.Error

/-- Modelled from the spec: the Kiosk owns a mapping from source name to
FeedState (the ui lib module is not among the shipped sources). The hash map
is embedded as an association list with at most one entry per name. -/
structure Kiosk where
  feeds : List (String × FeedState)
deriving DecidableEq, Repr

/-- Modelled from the spec: map insertion on the association list, replacing
the entry for the name when present and adding it otherwise; insert_feed
overwrites any existing state unconditionally. -/
def kioskInsert : List (String × FeedState) → String → FeedState → List (String × FeedState)
  | [], name, st => [(name, st)]
  | p :: rest, name, st =>
    if p.1 = name then (name, st) :: rest else p :: kioskInsert rest name st

/-- Modelled from the spec: map lookup on the association list. -/
def kioskLookup : List (String × FeedState) → String → Option FeedState
  | [], _ => none
  | p :: rest, name => if p.1 = name then some p.2 else kioskLookup rest name

/-- Kiosk.insert_feed, modelled from the spec: total, overwrites
unconditionally. -/
def Kiosk.insert_feed (k : Kiosk) (name : String) (st : FeedState) : Kiosk :=
  ⟨kioskInsert k.feeds name st⟩

/-- Modelled from the spec: lookup of the full FeedState for a source. -/
def Kiosk.get_feed_state (k : Kiosk) (name : String) : Option FeedState :=
  kioskLookup k.feeds name

/-- Modelled from the spec and the call sites in the shipped sources:
Kiosk.get_feed yields the Feed of a source exactly when its state is
Success (callers such as Model.update apply feed.articles() to the result). -/
def Kiosk.get_feed (k : Kiosk) (name : String) : Option Feed :=
  match kioskLookup k.feeds name with
  | some (FeedState.Success f) => some f
  | _ => none

/-- Modelled from the spec: Kiosk.sources, all configured source names. -/
def Kiosk.sources (k : Kiosk) : List String :=
  k.feeds.map Prod.fst

/-- Modelled from the spec: Kiosk.get_state, the (name, FlatFeedState)
projection consumed by the presentation layer. -/
def Kiosk.get_state (k : Kiosk) : List (String × FlatFeedState) :=
  k.feeds.map (fun p => (p.1, FlatFeedState.ofState p.2))

/-- Modelled from the spec: helpers strings elide_string_at (the helpers
module is not among the shipped sources), truncating a title at the given
maximum length with an ellipsis marker when it is longer. -/
def elide_string_at (s : String) (maxLen : Nat) : String :=
  if s.length ≤ maxLen then s else (s.take maxLen).push '…'

/-- Translation of Model.get_article_list from src/ui/model.rs: map each
article to its optionally elided title and flatten the options away, so that
articles without a title are dropped. -/
def get_article_list (feed : Feed) (max_title_len : Nat) : List String :=
  (feed.articles.map
    (fun x => x.title.map (fun t => elide_string_at t max_title_len))).reduceOption

/-- A computable decision procedure for the lexicographic order on strings,
through the character lists, so that sorted sequences evaluate on concrete
inputs. -/
instance (priority := 2000) decStringLe : DecidableRel (fun a b : String => a ≤ b) :=
  fun a b => decidable_of_iff (a.toList ≤ b.toList) String.le_iff_toList_le.symm

/-- Translation of Ui.sorted_sources and the Model variant: the kiosk
sources, sorted. -/
def sorted_sources (k : Kiosk) : List String :=
  List.insertionSort (· ≤ ·) k.sources

/-- Translation of the sort in Model.get_feed_list from src/ui/model.rs:
the kiosk state pairs sorted by name. -/
def get_feed_list (k : Kiosk) : List (String × FlatFeedState) :=
  List.insertionSort (fun a b => a.1 ≤ b.1) k.get_state

/-- Translation of the error format string in Ui.poll_fetched_sources from
src/ui/mod.rs, with the source name in double quotes. -/
def fetchErrorMessage (name err : String) : String :=
  "Could not fetch feed \"" ++ name ++ "\": " ++ err

/-- The Rust panic message of Option unwrap, used to embed unwrap calls on
a missing value as an observable failure. -/
def unwrapPanic : String :=
  "called Option::unwrap on a None value"

/-- Translation of SerializerErrorKind from src/config/serializer.rs. The
constructor names Io and Syntax are rendered ioKind and syntaxKind. -/
inductive SerializerErrorKind where
  | ioKind : SerializerErrorKind
  | syntaxKind : SerializerErrorKind
deriving DecidableEq, Repr

/-- Translation of the thiserror display strings of SerializerErrorKind. -/
def SerializerErrorKind.display : SerializerErrorKind → String
  | SerializerErrorKind.ioKind => "IO error"
  | SerializerErrorKind.syntaxKind => "Syntax error"

/-- Translation of SerializerError from src/config/serializer.rs. -/
structure SerializerError where
  kind : SerializerErrorKind
  msg : String
deriving DecidableEq, Repr

/-- Translation of the Display impl for SerializerError: kind, space, and
the message in parentheses. -/
def SerializerError.display (e : SerializerError) : String :=
  e.kind.display ++ " (" ++ e.msg ++ ")"

/-- Translation of deserialize from src/config/serializer.rs. Reading the
input to a string and TOML parsing are external effects, embedded as the
readResult argument and the parse argument: a read failure becomes an Io
error, a parse failure a Syntax error, and success the parsed value. -/
def deserialize {S : Type} (readResult : Except String String)
    (parse : String → Except String S) : Except SerializerError S :=
  match readResult with
  | Except.error err => Except.error ⟨SerializerErrorKind.ioKind, err⟩
  | Except.ok data =>
    match parse data with
    | Except.ok deserialized => Except.ok deserialized
    | Except.error err => Except.error ⟨SerializerErrorKind.syntaxKind, err⟩

/-- Modelled from the spec: a failure of the fetch worker is either a
transport failure or a parse failure, each carrying a human readable cause;
both are surfaced through the completion queue with the same shape. -/
inductive FetchError where
  | transport : String → FetchError
  | parse : String → FetchError
deriving DecidableEq, Repr

/-- Modelled from the spec: the cause text a worker deposits for a failure,
identical in form for transport and parse failures. -/
def FetchError.cause : FetchError → String
  | FetchError.transport c => c
  | FetchError.parse c => c

/-- A completed fetch as consumed by Ui.poll_fetched_sources: the source
name together with either the parsed feed or the error text. -/
abbrev Completion : Type := String × Except String Feed

/-- Modelled from the spec: FeedClient.poll returns at most one completed
result per call and never blocks; the completion queue is FIFO. The queue
of already completed fetches is embedded explicitly. -/
def FeedClient.poll : List Completion → Option Completion × List Completion
  | [] => (none, [])
  | c :: rest => (some c, rest)

/-- The Ui state relevant to the shipped orchestration code in
src/ui/mod.rs: the kiosk, the mounted feed list rows, the mounted article
list entries, the mounted article detail fields, the error popup, the
pending fetch requests handed to the client, and the redraw flag. -/
structure UiState where
  kiosk : Kiosk
  feedList : List (String × FlatFeedState)
  articleList : List String
  articleDetail : Option Article
  errorPopup : Option String
  pendingFetches : List (String × String)
  redraw : Bool
deriving DecidableEq, Repr

/-- Modelled from the spec: the feed list component keeps one row per
source; the update_feed_list attribute replaces the row of the named source
or adds it when absent. -/
def feedListSet : List (String × FlatFeedState) → String → FlatFeedState →
    List (String × FlatFeedState)
  | [], name, st => [(name, st)]
  | p :: rest, name, st =>
    if p.1 = name then (name, st) :: rest else p :: feedListSet rest name st

/-- Translation of Ui.update_feed_list from src/ui/mod.rs. -/
def UiState.update_feed_list (st : UiState) (name : String)
    (flat : FlatFeedState) : UiState :=
  { st with feedList := feedListSet st.feedList name flat }

/-- Translation of Ui.force_redraw from src/ui/mod.rs. -/
def UiState.force_redraw (st : UiState) : UiState :=
  { st with redraw := true }

/-- Translation of Ui.mount_error_popup from src/ui/mod.rs: remount the
error popup with the message and give it focus. -/
def UiState.mount_error_popup (st : UiState) (err : String) : UiState :=
  { st with errorPopup := some err }

/-- Translation of Ui.fetch_source from src/ui/mod.rs: hand the request to
the client, mark the source Loading in the kiosk, update the feed list row
and force a redraw. -/
def UiState.fetch_source (st : UiState) (name uri : String) : UiState :=
  let st := { st with pendingFetches := st.pendingFetches ++ [(name, uri)] }
  let st := { st with kiosk := st.kiosk.insert_feed name FeedState.Loading }
  let st := st.update_feed_list name FlatFeedState.Loading
  st.force_redraw

/-- Translation of Ui.fetch_all_sources from src/ui/mod.rs: fetch every
configured source in configuration order. -/
def UiState.fetch_all_sources (st : UiState)
    (sources : List (String × String)) : UiState :=
  sources.foldl (fun st p => st.fetch_source p.1 p.2) st

/-- Translation of Ui.is_article_list_empty from src/ui/mod.rs. -/
def UiState.is_article_list_empty (st : UiState) : Bool :=
  st.articleList.isEmpty

/-- Translation of Ui.init_article from src/ui/mod.rs: take the first of
the sorted sources; when the kiosk has a feed for it, remount the article
list derived from that feed, and when the feed has a first article, mount
its detail fields. -/
def UiState.init_article (st : UiState) (maxLen : Nat) : UiState :=
  match (sorted_sources st.kiosk).head? with
  | none => st
  | some source =>
    match st.kiosk.get_feed source with
    | none => st
    | some feed =>
      let st := { st with articleList := get_article_list feed maxLen }
      match feed.articles.head? with
      | none => st
      | some article => { st with articleDetail := some article }

/-- Translation of Ui.poll_fetched_sources from src/ui/mod.rs, applied to
the completion the client poll returned, if any: adapt the result to a
FeedState, mounting the error popup on failure, store it in the kiosk,
update the feed list row, initialize the article when the article list is
empty, and force a redraw. -/
def UiState.poll_fetched_sources (st : UiState) (maxLen : Nat)
    (polled : Option Completion) : UiState :=
  match polled with
  | none => st
  | some (name, result) =>
    let (st, state) :=
      match result with
      | Except.ok feed => (st, FeedState.Success feed)
      | Except.error err =>
        (st.mount_error_popup (fetchErrorMessage name err), FeedState.Error err)
    let flat := FlatFeedState.ofState state
    let st := { st with kiosk := st.kiosk.insert_feed name state }
    let st := st.update_feed_list name flat
    let st := if st.is_article_list_empty then st.init_article maxLen else st
    st.force_redraw

/-- One poll step of the main loop in Ui.run from src/ui/mod.rs: a single
client poll followed by Ui.poll_fetched_sources on its result, returning
the new state and the remaining completion queue. -/
def UiState.tick_poll (st : UiState) (maxLen : Nat)
    (queue : List Completion) : UiState × List Completion :=
  let (polled, rest) := FeedClient.poll queue
  (st.poll_fetched_sources maxLen polled, rest)

/-- Translation of Ui.new from src/ui/mod.rs: a fresh kiosk with every
configured source inserted as Loading, no mounted content and no pending
work. -/
def UiState.new (sources : List (String × String)) : UiState :=
  { kiosk := sources.foldl (fun k p => k.insert_feed p.1 FeedState.Loading) ⟨[]⟩
    feedList := []
    articleList := []
    articleDetail := none
    errorPopup := none
    pendingFetches := []
    redraw := false }

/-- Translation of the component identifiers (enum Id in src/ui/mod.rs),
used here for the focus of the view. -/
inductive UiId where
  | GlobalListener : UiId
  | FeedList : UiId
  | ArticleList : UiId
  | ArticleTitle : UiId
  | ArticleDate : UiId
  | ArticleAuthors : UiId
  | ArticleSummary : UiId
  | ArticleLink : UiId
  | QuitPopup : UiId
  | ErrorPopup : UiId
deriving DecidableEq, Repr

/-- Translation of enum Msg from src/ui/mod.rs. -/
inductive Msg where
  | ArticleBlur : Msg
  | ArticleChanged : Nat → Msg
  | ArticleListBlur : Msg
  | CloseApp : Msg
  | CloseErrorPopup : Msg
  | CloseQuitPopup : Msg
  | FeedChanged : Nat → Msg
  | FeedListBlur : Msg
  | FetchSource : Msg
  | FetchAllSources : Msg
  | GoReadArticle : Msg
  | OpenArticle : Msg
  | ShowQuitPopup : Msg
  | None : Msg
deriving DecidableEq, Repr

/-- Translation of the side effect tasks recorded by the reducer for the
orchestration loop (enum Task referenced by src/ui/mod.rs run_tasks). -/
inductive UiTask where
  | FetchSource : String → UiTask
  | FetchSources : UiTask
  | ShowError : String → UiTask
deriving DecidableEq, Repr

/-- The reducer state of src/ui/model.rs together with the view pieces its
update function reads and writes: the kiosk, the feed list selection as
reported by the view state query, the mounted article list and detail, the
focus, the popups, the recorded tasks, and the quit and redraw flags. -/
structure ModelState where
  kiosk : Kiosk
  feedListState : Option Nat
  articleList : List String
  articleDetail : Option Article
  focus : Option UiId
  quitPopup : Bool
  errorPopup : Bool
  tasks : List UiTask
  quit : Bool
  redraw : Bool
deriving DecidableEq, Repr

/-- Translation of Model.get_selected_feed_name from src/ui/model.rs: when
the feed list state is a selected index, look the name up in the sorted
sources, panicking on unwrap when the index is out of range. -/
def ModelState.get_selected_feed_name (m : ModelState) :
    Except String (Option String) :=
  match m.feedListState with
  | none => Except.ok none
  | some i =>
    match (sorted_sources m.kiosk).get? i with
    | none => Except.error unwrapPanic
    | some name => Except.ok (some name)

/-- Translation of Model.get_selected_feed from src/ui/model.rs: resolve
the selected name and unwrap the kiosk feed for it, panicking when the
kiosk has no feed for the selected source. -/
def ModelState.get_selected_feed (m : ModelState) :
    Except String (Option Feed) :=
  match m.get_selected_feed_name with
  | Except.error e => Except.error e
  | Except.ok none => Except.ok none
  | Except.ok (some name) =>
    match m.kiosk.get_feed name with
    | none => Except.error unwrapPanic
    | some feed => Except.ok (some feed)

/-- Translation of Model.update_article from src/ui/model.rs: when the
selected feed resolves and has an article at the index, remount the detail
fields from it; otherwise leave the view untouched. -/
def ModelState.update_article (m : ModelState) (article : Nat) :
    Except String ModelState :=
  match m.get_selected_feed with
  | Except.error e => Except.error e
  | Except.ok none => Except.ok m
  | Except.ok (some feed) =>
    match feed.articles.get? article with
    | none => Except.ok m
    | some a => Except.ok { m with articleDetail := some a }

/-- Translation of Model.update from src/ui/model.rs (the Update impl).
The external link opening collaborator is passed as openLink and the
terminal derived maximum title length as maxLen. Panicking unwrap calls are
embedded as Except errors; every branch first sets the redraw flag, as the
source does. -/
def ModelState.update (m : ModelState) (openLink : String → Except String Unit)
    (maxLen : Nat) (msg : Msg) : Except String ModelState :=
  let m := { m with redraw := true }
  match msg with
  | Msg.ArticleBlur => Except.ok { m with focus := some UiId.ArticleList }
  | Msg.ArticleChanged article => m.update_article article
  | Msg.ArticleListBlur => Except.ok { m with focus := some UiId.FeedList }
  | Msg.CloseApp => Except.ok { m with quit := true }
  | Msg.CloseErrorPopup => Except.ok { m with errorPopup := false }
  | Msg.CloseQuitPopup => Except.ok { m with quitPopup := false }
  | Msg.FeedChanged feed =>
    match (sorted_sources m.kiosk).get? feed with
    | none => Except.error unwrapPanic
    | some name =>
      match m.kiosk.get_feed name with
      | none => Except.ok m
      | some f =>
        let m := { m with articleList := get_article_list f maxLen }
        m.update_article 0
  | Msg.FeedListBlur => Except.ok { m with focus := some UiId.ArticleList }
  | Msg.FetchSource =>
    match m.get_selected_feed_name with
    | Except.error e => Except.error e
    | Except.ok none => Except.ok m
    | Except.ok (some name) =>
      Except.ok { m with tasks := m.tasks ++ [UiTask.FetchSource name] }
  | Msg.FetchAllSources =>
    Except.ok { m with tasks := m.tasks ++ [UiTask.FetchSources] }
  | Msg.GoReadArticle => Except.ok { m with focus := some UiId.ArticleSummary }
  | Msg.OpenArticle =>
    match m.articleDetail.map Article.url with
    | none => Except.ok m
    | some url =>
      match openLink url with
      | Except.ok _ => Except.ok m
      | Except.error err =>
        Except.ok { m with tasks := m.tasks ++ [UiTask.ShowError err] }
  | Msg.ShowQuitPopup => Except.ok { m with quitPopup := true }
  | Msg.None => Except.ok m

/-- A sample article with a present title, used in concrete scenarios. -/
def sampleArticle : Article :=
  { title := some "hello", authors := none, date := none
    summary := "sum", url := "http-u" }

/-- A sample feed named a with one article. -/
def sampleFeedA : Feed := { name := "a", articles := [sampleArticle] }

/-- A sample feed named b with one article. -/
def sampleFeedB : Feed := { name := "b", articles := [sampleArticle] }

/-- A Ui state with nothing mounted and an empty kiosk. -/
def uiBase : UiState :=
  { kiosk := ⟨[]⟩, feedList := [], articleList := [], articleDetail := none
    errorPopup := none, pendingFetches := [], redraw := false }

/-- A Ui state with the two sources a and b, both Loading, and no article
selected. -/
def uiTwoLoading : UiState :=
  { uiBase with
    kiosk := ⟨[("a", FeedState.Loading), ("b", FeedState.Loading)]⟩ }

/-- A reducer state with the single source a in Success state and the feed
list selection on index 0. -/
def modelA : ModelState :=
  { kiosk := ⟨[("a", FeedState.Success sampleFeedA)]⟩, feedListState := some 0
    articleList := [], articleDetail := none, focus := none
    quitPopup := false, errorPopup := false, tasks := [], quit := false
    redraw := false }

/-- A link opening collaborator that always succeeds. -/
def openLinkOk : String → Except String Unit := fun _ => Except.ok ()

theorem kioskLookup_insert (l : List (String × FeedState)) (name : String)
    (st : FeedState) (n : String) :
    kioskLookup (kioskInsert l name st) n
      = if n = name then some st else kioskLookup l n := by
  induction l with
  | nil =>
    by_cases h : n = name
    · subst h; simp [kioskInsert, kioskLookup]
    · simp [kioskInsert, kioskLookup, h, Ne.symm h]
  | cons p rest ih =>
    by_cases h : n = name
    · subst h
      by_cases hp : p.1 = n
      · simp [kioskInsert, hp, kioskLookup]
      · simp [kioskInsert, hp, kioskLookup, ih]
    · by_cases hp : p.1 = name
      · have hpn : ¬p.1 = n := by rw [hp]; exact Ne.symm h
        simp [kioskInsert, hp, kioskLookup, h, Ne.symm h, hpn]
      · simp [kioskInsert, hp, kioskLookup, h, ih]

theorem Kiosk.get_feed_state_insert (k : Kiosk) (name : String)
    (st : FeedState) (n : String) :
    (k.insert_feed name st).get_feed_state n
      = if n = name then some st else k.get_feed_state n :=
  kioskLookup_insert k.feeds name st n

theorem mem_map_fst_kioskInsert (l : List (String × FeedState)) (name : String)
    (st : FeedState) (n : String) :
    n ∈ (kioskInsert l name st).map Prod.fst ↔ n = name ∨ n ∈ l.map Prod.fst := by
  induction l with
  | nil => simp [kioskInsert]
  | cons p rest ih =>
    by_cases hp : p.1 = name
    · simp only [kioskInsert, if_pos hp, List.map_cons, List.mem_cons]
      constructor
      · rintro (h | h)
        · exact Or.inl h
        · exact Or.inr (Or.inr h)
      · rintro (h | h | h)
        · exact Or.inl h
        · exact Or.inl (h.trans hp)
        · exact Or.inr h
    · simp only [kioskInsert, if_neg hp, List.map_cons, List.mem_cons, ih]
      tauto

theorem kioskInsert_ne_nil (l : List (String × FeedState)) (name : String)
    (st : FeedState) : kioskInsert l name st ≠ [] := by
  cases l with
  | nil => simp [kioskInsert]
  | cons p rest =>
    simp only [kioskInsert]
    split <;> simp

theorem UiState.init_article_kiosk (st : UiState) (maxLen : Nat) :
    (st.init_article maxLen).kiosk = st.kiosk := by
  unfold UiState.init_article
  split
  · rfl
  · split
    · rfl
    · split <;> rfl

theorem UiState.init_article_errorPopup (st : UiState) (maxLen : Nat) :
    (st.init_article maxLen).errorPopup = st.errorPopup := by
  unfold UiState.init_article
  split
  · rfl
  · split
    · rfl
    · split <;> rfl

theorem UiState.poll_some_kiosk (st : UiState) (maxLen : Nat) (name : String)
    (result : Except String Feed) :
    (st.poll_fetched_sources maxLen (some (name, result))).kiosk
      = st.kiosk.insert_feed name
          (match result with
           | Except.ok f => FeedState.Success f
           | Except.error e => FeedState.Error e) := by
  cases result with
  | ok f =>
    simp only [UiState.poll_fetched_sources]
    split <;>
      simp [UiState.init_article_kiosk, UiState.force_redraw,
        UiState.update_feed_list, UiState.mount_error_popup]
  | error e =>
    simp only [UiState.poll_fetched_sources]
    split <;>
      simp [UiState.init_article_kiosk, UiState.force_redraw,
        UiState.update_feed_list, UiState.mount_error_popup]

/-- C1: a success completion polled by poll_fetched_sources sets the Kiosk
entry of the source to Success with the feed, a failure completion sets it
to Error with the message, and a subsequent fetch_source for the source
sets the entry back to Loading regardless of the prior state and discards
any stored Feed value. -/
theorem poll_and_fetch_kiosk_transitions (st : UiState) (maxLen : Nat)
    (S uri : String) (feed : Feed) (msg : String) :
    ((st.poll_fetched_sources maxLen (some (S, Except.ok feed))).kiosk.get_feed_state S
        = some (FeedState.Success feed))
    ∧ ((st.poll_fetched_sources maxLen (some (S, Except.error msg))).kiosk.get_feed_state S
        = some (FeedState.Error msg))
    ∧ ((st.fetch_source S uri).kiosk.get_feed_state S = some FeedState.Loading)
    ∧ ((st.fetch_source S uri).kiosk.get_feed S = none) := by
  refine ⟨?_, ?_, ?_, ?_⟩
  · rw [UiState.poll_some_kiosk]
    simp [Kiosk.get_feed_state_insert]
  · rw [UiState.poll_some_kiosk]
    simp [Kiosk.get_feed_state_insert]
  · simp [UiState.fetch_source, UiState.force_redraw, UiState.update_feed_list,
      Kiosk.get_feed_state_insert]
  · simp only [UiState.fetch_source, UiState.force_redraw, UiState.update_feed_list]
    simp [Kiosk.get_feed, Kiosk.insert_feed, kioskLookup_insert]

theorem lookup_fold_insert_loading (sources : List (String × String)) (k : Kiosk)
    (n : String) :
    (sources.foldl (fun k p => k.insert_feed p.1 FeedState.Loading) k).get_feed_state n
      = if n ∈ sources.map Prod.fst then some FeedState.Loading
        else k.get_feed_state n := by
  induction sources generalizing k with
  | nil => simp
  | cons p rest ih =>
    simp only [List.foldl_cons, List.map_cons, List.mem_cons]
    rw [ih]
    by_cases h : n ∈ rest.map Prod.fst
    · simp [h]
    · by_cases h2 : n = p.1
      · simp [h, h2, Kiosk.get_feed_state_insert]
      · simp [h, h2, Kiosk.get_feed_state_insert]

theorem mem_sources_fold_insert_loading (sources : List (String × String))
    (k : Kiosk) (n : String) :
    n ∈ (sources.foldl (fun k p => k.insert_feed p.1 FeedState.Loading) k).sources
      ↔ n ∈ sources.map Prod.fst ∨ n ∈ k.sources := by
  induction sources generalizing k with
  | nil => simp
  | cons p rest ih =>
    simp only [List.foldl_cons, List.map_cons, List.mem_cons]
    rw [ih]
    have : n ∈ (k.insert_feed p.1 FeedState.Loading).sources
        ↔ n = p.1 ∨ n ∈ k.sources :=
      mem_map_fst_kioskInsert k.feeds p.1 FeedState.Loading n
    rw [this]
    tauto

/-- C4: immediately after Ui.new, the Kiosk maps a name to Loading exactly
when it is a configured source name, and the Kiosk source set is exactly
the configuration key set. -/
theorem ui_new_kiosk_all_loading (sources : List (String × String)) (n : String) :
    ((UiState.new sources).kiosk.get_feed_state n = some FeedState.Loading
        ↔ n ∈ sources.map Prod.fst)
    ∧ (n ∈ (UiState.new sources).kiosk.sources ↔ n ∈ sources.map Prod.fst) := by
  constructor
  · rw [UiState.new, lookup_fold_insert_loading]
    by_cases h : n ∈ sources.map Prod.fst
    · simp [h]
    · simp [h, Kiosk.get_feed_state, kioskLookup]
  · rw [UiState.new, mem_sources_fold_insert_loading]
    simp [Kiosk.sources]

instance : IsTotal (String × FlatFeedState) (fun a b => a.1 ≤ b.1) :=
  ⟨fun a b => le_total a.1 b.1⟩

instance : IsTrans (String × FlatFeedState) (fun a b => a.1 ≤ b.1) :=
  ⟨fun _ _ _ hab hbc => le_trans hab hbc⟩

theorem map_fst_get_state (k : Kiosk) :
    k.get_state.map Prod.fst = k.sources := by
  simp [Kiosk.get_state, Kiosk.sources, List.map_map]

/-- C5: with the kiosk keys distinct (it embeds a map), both sorted-source
derivations are strictly increasing by name, and the sorted sequence is a
function of the current key set alone (recomputed, not cached). -/
theorem sorted_sources_strict_and_recomputed (k : Kiosk)
    (h : k.sources.Nodup) :
    (sorted_sources k).Sorted (· < ·)
    ∧ (get_feed_list k).Pairwise (fun a b => a.1 < b.1)
    ∧ (∀ k2 : Kiosk, k.sources = k2.sources → sorted_sources k = sorted_sources k2) := by
  refine ⟨?_, ?_, ?_⟩
  · have hle : (sorted_sources k).Sorted (· ≤ ·) :=
      List.sorted_insertionSort (· ≤ ·) k.sources
    have hnd : (sorted_sources k).Nodup :=
      (List.perm_insertionSort (· ≤ ·) k.sources).symm.nodup h
    exact hle.lt_of_le hnd
  · have hle : (get_feed_list k).Pairwise
        (fun a b : String × FlatFeedState => a.1 ≤ b.1) := by
      unfold get_feed_list
      exact List.sorted_insertionSort _ _
    have hperm : List.Perm ((get_feed_list k).map Prod.fst)
        (k.get_state.map Prod.fst) := by
      unfold get_feed_list
      exact (List.perm_insertionSort _ _).map Prod.fst
    have hnd : ((get_feed_list k).map Prod.fst).Nodup := by
      refine hperm.symm.nodup ?_
      rw [map_fst_get_state]
      exact h
    have hne : (get_feed_list k).Pairwise
        (fun a b : String × FlatFeedState => a.1 ≠ b.1) :=
      (List.pairwise_map).mp hnd
    exact hle.imp₂ (fun _ _ => lt_of_le_of_ne) hne
  · intro k2 hk
    rw [sorted_sources, sorted_sources, hk]

/-- Witness for the C5 theorem at a concrete two-source kiosk. -/
theorem sorted_sources_strict_and_recomputed_witness :
    (Kiosk.sources ⟨[("b", FeedState.Loading), ("a", FeedState.Error "x")]⟩).Nodup
    ∧ ((sorted_sources ⟨[("b", FeedState.Loading), ("a", FeedState.Error "x")]⟩).Sorted (· < ·)
      ∧ (get_feed_list ⟨[("b", FeedState.Loading), ("a", FeedState.Error "x")]⟩).Pairwise
          (fun a b => a.1 < b.1)
      ∧ (∀ k2 : Kiosk,
          (Kiosk.sources ⟨[("b", FeedState.Loading), ("a", FeedState.Error "x")]⟩) = k2.sources →
          sorted_sources ⟨[("b", FeedState.Loading), ("a", FeedState.Error "x")]⟩
            = sorted_sources k2)) :=
  ⟨by decide,
   sorted_sources_strict_and_recomputed
     ⟨[("b", FeedState.Loading), ("a", FeedState.Error "x")]⟩ (by decide)⟩

theorem UiState.poll_error_popup (st : UiState) (maxLen : Nat)
    (name err : String) :
    (st.poll_fetched_sources maxLen (some (name, Except.error err))).errorPopup
      = some (fetchErrorMessage name err) := by
  simp only [UiState.poll_fetched_sources]
  split <;>
    simp [UiState.init_article_errorPopup, UiState.force_redraw,
      UiState.update_feed_list, UiState.mount_error_popup]

/-- C6 counterexample: the surfaced message for a failed fetch of source a
with cause boom is not of the shape the claim quotes; the actual message
capitalizes Could and puts the source name in double quotes. -/
theorem fetch_error_message_shape_cex :
    (uiTwoLoading.poll_fetched_sources 10 (some ("a", Except.error "boom"))).errorPopup
      = some "Could not fetch feed \"a\": boom"
    ∧ ("Could not fetch feed \"a\": boom" : String) ≠ "could not fetch feed a: boom" := by
  constructor
  · decide
  · decide

/-- C6 amended: every failed fetch completion, whether its cause came from
a transport failure or a parse failure, is surfaced with the single uniform
shape: Could not fetch feed, the source name in double quotes, a colon and
the cause; no failure kind gets a distinct shape. -/
theorem fetch_error_message_uniform_shape (st : UiState) (maxLen : Nat)
    (name : String) (e : FetchError) (c : String) :
    ((st.poll_fetched_sources maxLen (some (name, Except.error e.cause))).errorPopup
      = some ("Could not fetch feed \"" ++ name ++ "\": " ++ e.cause))
    ∧ fetchErrorMessage name (FetchError.transport c).cause
        = fetchErrorMessage name (FetchError.parse c).cause := by
  constructor
  · rw [UiState.poll_error_popup]
    rfl
  · rfl

/-- C2 counterexample: with sources a and b both Loading and no article
selected, a success completion for b, the only source with nonempty data,
leaves the article detail unmounted and the article list empty: the code
only ever tries the lexicographically first source overall, here a. -/
theorem init_article_skips_nonfirst_source_cex :
    uiTwoLoading.articleList = []
    ∧ ((uiTwoLoading.poll_fetched_sources 10 (some ("b", Except.ok sampleFeedB))).kiosk.get_feed "b"
        = some sampleFeedB)
    ∧ ((uiTwoLoading.poll_fetched_sources 10 (some ("b", Except.ok sampleFeedB))).kiosk.get_feed "a"
        = none)
    ∧ sampleFeedB.articles ≠ []
    ∧ ((uiTwoLoading.poll_fetched_sources 10 (some ("b", Except.ok sampleFeedB))).articleDetail
        = none)
    ∧ ((uiTwoLoading.poll_fetched_sources 10 (some ("b", Except.ok sampleFeedB))).articleList
        = []) := by
  refine ⟨rfl, by decide, by decide, by decide, by decide, by decide⟩

theorem UiState.init_article_spec (st : UiState) (maxLen : Nat) (s0 : String)
    (h : (sorted_sources st.kiosk).head? = some s0) :
    (st.kiosk.get_feed s0 = none → st.init_article maxLen = st)
    ∧ (∀ f, st.kiosk.get_feed s0 = some f →
        (st.init_article maxLen).articleList = get_article_list f maxLen
        ∧ (st.init_article maxLen).articleDetail
            = (f.articles.head?).elim st.articleDetail some) := by
  unfold UiState.init_article
  rw [h]
  constructor
  · intro hn
    simp only [hn]
  · intro f hf
    simp only [hf]
    cases hh : f.articles.head? <;> simp [hh]

theorem sorted_sources_length (k : Kiosk) :
    (sorted_sources k).length = k.feeds.length := by
  rw [sorted_sources, (List.perm_insertionSort _ _).length_eq, Kiosk.sources,
    List.length_map]

theorem sorted_sources_ne_nil (k : Kiosk) (h : k.feeds ≠ []) :
    sorted_sources k ≠ [] := by
  intro hs
  apply h
  have hlen := sorted_sources_length k
  rw [hs] at hlen
  exact List.eq_nil_of_length_eq_zero hlen.symm

theorem UiState.poll_some_shape (st : UiState) (maxLen : Nat) (name : String)
    (result : Except String Feed) (hempty : st.articleList = []) :
    ∃ stMid : UiState,
      st.poll_fetched_sources maxLen (some (name, result))
        = (stMid.init_article maxLen).force_redraw
      ∧ stMid.kiosk = st.kiosk.insert_feed name
          (match result with
           | Except.ok f => FeedState.Success f
           | Except.error e => FeedState.Error e)
      ∧ stMid.articleList = []
      ∧ stMid.articleDetail = st.articleDetail := by
  cases result with
  | ok f =>
    refine ⟨{ st with
        kiosk := st.kiosk.insert_feed name (FeedState.Success f),
        feedList := feedListSet st.feedList name FlatFeedState.Success },
      ?_, rfl, hempty, rfl⟩
    unfold UiState.poll_fetched_sources
    simp only [UiState.update_feed_list, UiState.mount_error_popup,
      UiState.is_article_list_empty, FlatFeedState.ofState]
    rw [hempty]
    simp
  | error e =>
    refine ⟨{ st with
        errorPopup := some (fetchErrorMessage name e),
        kiosk := st.kiosk.insert_feed name (FeedState.Error e),
        feedList := feedListSet st.feedList name FlatFeedState.Error },
      ?_, rfl, hempty, rfl⟩
    unfold UiState.poll_fetched_sources
    simp only [UiState.update_feed_list, UiState.mount_error_popup,
      UiState.is_article_list_empty, FlatFeedState.ofState]
    rw [hempty]
    simp

/-- C2 amended: when no article is selected and a completion is processed,
selection is attempted only from the lexicographically first source of the
whole kiosk: when the kiosk holds a feed for that first source, its derived
article list is mounted and its first article, if any, becomes the detail;
when the first source has no feed data, nothing is selected even if
another source has nonempty data. -/
theorem poll_selects_only_first_sorted_source (st : UiState) (maxLen : Nat)
    (name : String) (result : Except String Feed)
    (hempty : st.articleList = []) :
    ∃ s0,
      (sorted_sources (st.poll_fetched_sources maxLen (some (name, result))).kiosk).head?
        = some s0
      ∧ ((st.poll_fetched_sources maxLen (some (name, result))).kiosk.get_feed s0 = none →
          (st.poll_fetched_sources maxLen (some (name, result))).articleList = []
          ∧ (st.poll_fetched_sources maxLen (some (name, result))).articleDetail
              = st.articleDetail)
      ∧ (∀ f, (st.poll_fetched_sources maxLen (some (name, result))).kiosk.get_feed s0 = some f →
          (st.poll_fetched_sources maxLen (some (name, result))).articleList
              = get_article_list f maxLen
          ∧ (st.poll_fetched_sources maxLen (some (name, result))).articleDetail
              = (f.articles.head?).elim st.articleDetail some) := by
  obtain ⟨stMid, hpoll, hkiosk, hlist, hdetail⟩ :=
    UiState.poll_some_shape st maxLen name result hempty
  have hkne : stMid.kiosk.feeds ≠ [] := by
    rw [hkiosk]
    exact kioskInsert_ne_nil _ _ _
  have hsne : sorted_sources stMid.kiosk ≠ [] := sorted_sources_ne_nil _ hkne
  obtain ⟨s0, tl, hhead⟩ : ∃ s0 tl, sorted_sources stMid.kiosk = s0 :: tl := by
    cases hc : sorted_sources stMid.kiosk with
    | nil => exact absurd hc hsne
    | cons a t => exact ⟨a, t, rfl⟩
  have hhead? : (sorted_sources stMid.kiosk).head? = some s0 := by
    rw [hhead]; rfl
  have hspec := UiState.init_article_spec stMid maxLen s0 hhead?
  have hK : (st.poll_fetched_sources maxLen (some (name, result))).kiosk = stMid.kiosk := by
    rw [hpoll, UiState.force_redraw]
    exact stMid.init_article_kiosk maxLen
  refine ⟨s0, ?_, ?_, ?_⟩
  · rw [hK]
    exact hhead?
  · intro hnone
    rw [hK] at hnone
    have hinit := hspec.1 hnone
    rw [hpoll, UiState.force_redraw, hinit]
    exact ⟨hlist, hdetail⟩
  · intro f hf
    rw [hK] at hf
    have hinit := hspec.2 f hf
    rw [hpoll, UiState.force_redraw]
    refine ⟨hinit.1, ?_⟩
    rw [hinit.2, hdetail]

/-- Witness for the C2 amended theorem: polling the success completion for
b while a and b are Loading and nothing is selected resolves the first
sorted source a, which has no feed data, so nothing is selected. -/
theorem poll_selects_only_first_sorted_source_witness :
    uiTwoLoading.articleList = []
    ∧ ∃ s0,
      (sorted_sources (uiTwoLoading.poll_fetched_sources 10
          (some ("b", Except.ok sampleFeedB))).kiosk).head? = some s0
      ∧ (((uiTwoLoading.poll_fetched_sources 10
            (some ("b", Except.ok sampleFeedB))).kiosk.get_feed s0 = none →
          (uiTwoLoading.poll_fetched_sources 10
            (some ("b", Except.ok sampleFeedB))).articleList = []
          ∧ (uiTwoLoading.poll_fetched_sources 10
            (some ("b", Except.ok sampleFeedB))).articleDetail
              = uiTwoLoading.articleDetail)
        ∧ (∀ f, (uiTwoLoading.poll_fetched_sources 10
            (some ("b", Except.ok sampleFeedB))).kiosk.get_feed s0 = some f →
          (uiTwoLoading.poll_fetched_sources 10
            (some ("b", Except.ok sampleFeedB))).articleList
              = get_article_list f 10
          ∧ (uiTwoLoading.poll_fetched_sources 10
            (some ("b", Except.ok sampleFeedB))).articleDetail
              = (f.articles.head?).elim uiTwoLoading.articleDetail some)) :=
  ⟨rfl, poll_selects_only_first_sorted_source uiTwoLoading 10 "b"
    (Except.ok sampleFeedB) rfl⟩

/-- C3 counterexample: with one source a and two sources worth of room
absent, the reducer handling FeedChanged 5 hits the unwrap on a missing
sorted-sources entry and panics instead of failing soft. -/
theorem feed_changed_out_of_range_panics_cex :
    modelA.update openLinkOk 10 (Msg.FeedChanged 5) = Except.error unwrapPanic := by
  rfl

/-- C3 amended: ArticleChanged with an out-of-range article index is
ignored without a panic when the selected feed resolves, but FeedChanged
with an out-of-range source index panics the process through the unwrap on
the sorted source lookup. -/
theorem out_of_range_msgs_split (m : ModelState)
    (openLink : String → Except String Unit) (maxLen : Nat) :
    (∀ i, (sorted_sources m.kiosk).length ≤ i →
        m.update openLink maxLen (Msg.FeedChanged i) = Except.error unwrapPanic)
    ∧ (∀ j fi name feed, m.feedListState = some fi →
        (sorted_sources m.kiosk).get? fi = some name →
        m.kiosk.get_feed name = some feed →
        feed.articles.length ≤ j →
        m.update openLink maxLen (Msg.ArticleChanged j)
          = Except.ok { m with redraw := true }) := by
  constructor
  · intro i hi
    have hg : (sorted_sources m.kiosk).get? i = none := List.get?_eq_none.mpr hi
    unfold ModelState.update
    simp only [hg]
  · intro j fi name feed hfi hname hfeed hj
    have hg : feed.articles.get? j = none := List.get?_eq_none.mpr hj
    unfold ModelState.update ModelState.update_article ModelState.get_selected_feed
      ModelState.get_selected_feed_name
    simp only [hfi, hname, hfeed, hg]

/-- Witness for the C3 amended theorem on the one-source reducer state. -/
theorem out_of_range_msgs_split_witness :
    ((sorted_sources modelA.kiosk).length ≤ 5
      ∧ modelA.update openLinkOk 10 (Msg.FeedChanged 5) = Except.error unwrapPanic)
    ∧ (modelA.feedListState = some 0
      ∧ (sorted_sources modelA.kiosk).get? 0 = some "a"
      ∧ modelA.kiosk.get_feed "a" = some sampleFeedA
      ∧ sampleFeedA.articles.length ≤ 7
      ∧ modelA.update openLinkOk 10 (Msg.ArticleChanged 7)
          = Except.ok { modelA with redraw := true }) :=
  ⟨⟨by decide, (out_of_range_msgs_split modelA openLinkOk 10).1 5 (by decide)⟩,
   ⟨rfl, by decide, by decide, by decide,
    (out_of_range_msgs_split modelA openLinkOk 10).2 7 0 "a" sampleFeedA rfl
      (by decide) (by decide) (by decide)⟩⟩

/-- C7: for an in-range source index whose source the kiosk holds a feed
for, FeedChanged rederives the article list from that feed and mounts the
first article of the feed as the detail, leaving it unchanged when the
feed has no articles. -/
theorem feed_changed_rederives_articles (m : ModelState)
    (openLink : String → Except String Unit) (maxLen i : Nat)
    (name : String) (feed : Feed)
    (hsel : m.feedListState = some i)
    (hname : (sorted_sources m.kiosk).get? i = some name)
    (hfeed : m.kiosk.get_feed name = some feed) :
    ∃ m2, m.update openLink maxLen (Msg.FeedChanged i) = Except.ok m2
      ∧ m2.articleList = get_article_list feed maxLen
      ∧ m2.articleDetail = (feed.articles.head?).elim m.articleDetail some
      ∧ m2.kiosk = m.kiosk := by
  unfold ModelState.update ModelState.update_article ModelState.get_selected_feed
    ModelState.get_selected_feed_name
  simp only [hsel, hname, hfeed]
  cases hh : feed.articles with
  | nil => exact ⟨_, rfl, rfl, by simp [hh], rfl⟩
  | cons a t => exact ⟨_, rfl, rfl, by simp [hh], rfl⟩

/-- Witness for the C7 theorem on the one-source reducer state. -/
theorem feed_changed_rederives_articles_witness :
    ∃ m2, modelA.update openLinkOk 10 (Msg.FeedChanged 0) = Except.ok m2
      ∧ m2.articleList = get_article_list sampleFeedA 10
      ∧ m2.articleDetail = (sampleFeedA.articles.head?).elim modelA.articleDetail some
      ∧ m2.kiosk = modelA.kiosk :=
  feed_changed_rederives_articles modelA openLinkOk 10 0 "a" sampleFeedA rfl
    (by decide) (by decide)

/-- C9: the rendered article list contains exactly the articles with a
present title, in feed document order, each title elided at the maximum
title length; articles without a title are omitted. -/
theorem get_article_list_titled_in_order (feed : Feed) (n : Nat) :
    get_article_list feed n
      = (feed.articles.filter (fun a => a.title.isSome)).map
          (fun a => elide_string_at (a.title.getD "") n) := by
  unfold get_article_list
  induction feed.articles with
  | nil => rfl
  | cons a rest ih =>
    cases h : a.title with
    | none => simpa [h, List.reduceOption] using ih
    | some t => simpa [h, List.reduceOption] using ih

/-- C10: deserialize yields an Io error exactly when reading fails, a
Syntax error exactly when TOML parsing of the read string fails, the parsed
value otherwise, and a SerializerError displays as the kind text followed
by the message in parentheses. -/
theorem deserialize_error_taxonomy {S : Type} (readResult : Except String String)
    (parse : String → Except String S) :
    ((∃ m, deserialize readResult parse
        = Except.error ⟨SerializerErrorKind.ioKind, m⟩)
      ↔ (∃ m, readResult = Except.error m))
    ∧ (∀ e, readResult = Except.error e →
        deserialize readResult parse
          = Except.error ⟨SerializerErrorKind.ioKind, e⟩)
    ∧ ((∃ m, deserialize readResult parse
        = Except.error ⟨SerializerErrorKind.syntaxKind, m⟩)
      ↔ (∃ d e, readResult = Except.ok d ∧ parse d = Except.error e))
    ∧ (∀ d e, readResult = Except.ok d → parse d = Except.error e →
        deserialize readResult parse
          = Except.error ⟨SerializerErrorKind.syntaxKind, e⟩)
    ∧ (∀ d v, readResult = Except.ok d → parse d = Except.ok v →
        deserialize readResult parse = Except.ok v)
    ∧ (∀ m, SerializerError.display ⟨SerializerErrorKind.ioKind, m⟩
        = "IO error (" ++ m ++ ")")
    ∧ (∀ m, SerializerError.display ⟨SerializerErrorKind.syntaxKind, m⟩
        = "Syntax error (" ++ m ++ ")")
    ∧ SerializerError.display ⟨SerializerErrorKind.syntaxKind, "bad syntax"⟩
        = "Syntax error (bad syntax)" := by
  refine ⟨?_, ?_, ?_, ?_, ?_, ?_, ?_, ?_⟩
  · cases readResult with
    | error e => simp [deserialize]
    | ok d =>
      cases hp : parse d with
      | ok v => simp [deserialize, hp]
      | error e => simp [deserialize, hp]
  · intro e he
    subst he
    simp [deserialize]
  · cases readResult with
    | error e => simp [deserialize]
    | ok d =>
      cases hp : parse d with
      | ok v => simp [deserialize, hp]
      | error e => simp [deserialize, hp]
  · intro d e hd hp
    subst hd
    simp [deserialize, hp]
  · intro d v hd hp
    subst hd
    simp [deserialize, hp]
  · intro m
    rfl
  · intro m
    rfl
  · rfl

/-- Witness for the C10 theorem at a concrete reader and parser. -/
theorem deserialize_error_taxonomy_witness :
    deserialize (Except.error "boom") (fun _ : String => Except.ok (0 : Nat))
      = Except.error ⟨SerializerErrorKind.ioKind, "boom"⟩ :=
  (deserialize_error_taxonomy (Except.error "boom")
    (fun _ : String => Except.ok (0 : Nat))).2.1 "boom" rfl

/-- C8: a tick of the orchestration loop performs a single client poll, so
it consumes at most one completion from the queue, and the one consumed
completion mutates at most the one Kiosk entry it names; completions are
never batched into one tick. -/
theorem tick_poll_at_most_one_completion (st : UiState) (maxLen : Nat)
    (queue : List Completion) :
    queue.length - ((st.tick_poll maxLen queue).2).length ≤ 1
    ∧ (queue = [] → st.tick_poll maxLen queue = (st, []))
    ∧ (∀ c rest, queue = c :: rest →
        (st.tick_poll maxLen queue).2 = rest
        ∧ (st.tick_poll maxLen queue).1 = st.poll_fetched_sources maxLen (some c)
        ∧ ∀ n, n ≠ c.1 →
            ((st.tick_poll maxLen queue).1).kiosk.get_feed_state n
              = st.kiosk.get_feed_state n) := by
  cases queue with
  | nil =>
    refine ⟨by simp, fun _ => rfl, ?_⟩
    intro c rest h
    cases h
  | cons c rest =>
    refine ⟨by simp [UiState.tick_poll, FeedClient.poll], ?_, ?_⟩
    · intro h
      cases h
    · intro c2 rest2 h
      cases h
      refine ⟨rfl, rfl, ?_⟩
      intro n hn
      obtain ⟨nm, res⟩ := c
      show (st.poll_fetched_sources maxLen (some (nm, res))).kiosk.get_feed_state n
          = st.kiosk.get_feed_state n
      rw [UiState.poll_some_kiosk, Kiosk.get_feed_state_insert, if_neg hn]

/-- Witness for the C8 theorem on a one-element completion queue. -/
theorem tick_poll_at_most_one_completion_witness :
    (uiTwoLoading.tick_poll 10 [("a", Except.error "x")]).2 = []
    ∧ (uiTwoLoading.tick_poll 10 [("a", Except.error "x")]).1
        = uiTwoLoading.poll_fetched_sources 10 (some ("a", Except.error "x"))
    ∧ ∀ n, n ≠ "a" →
        ((uiTwoLoading.tick_poll 10 [("a", Except.error "x")]).1).kiosk.get_feed_state n
          = uiTwoLoading.kiosk.get_feed_state n :=
  (tick_poll_at_most_one_completion uiTwoLoading 10
    [("a", Except.error "x")]).2.2 ("a", Except.error "x") [] rfl
